import Mathlib

/-!
Verification of the PicoStageDriver controller firmware core.

This file gives a shallow embedding of the motion/control engine of the
multi-axis stepper controller firmware: the per-axis parameter store
(Parameters.cpp), the stepper-driver abstraction (TMC.cpp), the cross-axis
motion orchestrator (Motors.cpp), and the serial / remote command entry
points (SerialComm.cpp, RemoteComm implementation).

Modelling conventions:
 - `int8_t` status flags that only ever hold 0/1 are modelled as `Bool`;
   `int32_t` quantities are modelled as `Int` (the store performs no
   arithmetic on parameter values, so no wrap-around is involved in the
   properties proved here).
 - Hardware register reads whose value is not a function of the modelled
   state (SPI status polls such as `CheckStatus`/`CheckError`) are passed
   in as explicit arguments, playing the role of the environment.
 - The driver registers the spec talks about (XACTUAL, XTARGET, XENC,
   VMAX) are modelled; writes to other TMC5240 fields (latch arming,
   ramp mode, TOFF, ...) are hardware I/O outside the modelled state and
   are noted in comments at the corresponding step.
-/

namespace PicoStage

/-- Error codes, from the `ErrorType` enum in Common.h. -/
def ERR_None : Int := 0

/-- Serial-layer error code (Common.h). -/
def ERR_Serial : Int := -1

/-- Motor-layer error code (Common.h). -/
def ERR_Motor : Int := -2

/-- Driver-layer error code (Common.h). -/
def ERR_TMC : Int := -3

/-- Parameter-layer error code (Common.h). -/
def ERR_Parameter : Int := -4

/-- Remote-layer error code (Common.h). -/
def ERR_Remote : Int := -5

/-- Device presence per axis, from the `MotorType` enum in Common.h. -/
inductive MotorType where
  | MOTOR_NONE
  | MOTOR_SIM
  | MOTOR_TMC
deriving DecidableEq

/-- Indices into the 34-entry `motParamsIDList` table of Parameters.h,
in declaration order: CSCA CRAN CRUN CHOL MMIC MINV MTOF MSGE MSGT MTCT
HMOD HDIR HVEL HSST HNEV RSEV RMXV RSEA RMXA ECON EDEV ETOL EMAX ERST
SLEN SREN SLPO SRPO SSWP LENC LLEN LREN LLPS LRPS. -/
def idxCSCA : Fin 34 := 0
def idxCRAN : Fin 34 := 1
def idxCRUN : Fin 34 := 2
def idxCHOL : Fin 34 := 3
def idxMMIC : Fin 34 := 4
def idxMINV : Fin 34 := 5
def idxMTOF : Fin 34 := 6
def idxMSGE : Fin 34 := 7
def idxMSGT : Fin 34 := 8
def idxMTCT : Fin 34 := 9
def idxHMOD : Fin 34 := 10
def idxHDIR : Fin 34 := 11
def idxHVEL : Fin 34 := 12
def idxHSST : Fin 34 := 13
def idxHNEV : Fin 34 := 14
def idxRSEV : Fin 34 := 15
def idxRMXV : Fin 34 := 16
def idxRSEA : Fin 34 := 17
def idxRMXA : Fin 34 := 18
def idxECON : Fin 34 := 19
def idxEDEV : Fin 34 := 20
def idxETOL : Fin 34 := 21
def idxEMAX : Fin 34 := 22
def idxERST : Fin 34 := 23
def idxSLEN : Fin 34 := 24
def idxSREN : Fin 34 := 25
def idxSLPO : Fin 34 := 26
def idxSRPO : Fin 34 := 27
def idxSSWP : Fin 34 := 28
def idxLENC : Fin 34 := 29
def idxLLEN : Fin 34 := 30
def idxLREN : Fin 34 := 31
def idxLLPS : Fin 34 := 32
def idxLRPS : Fin 34 := 33

/-- Indices into the 8-entry `motStatIDList` status table of Motors.h,
in declaration order: XACT XTAR XENC VELO ACCE ENAB TEMP PULL. -/
def stXACT : Fin 8 := 0
def stXTAR : Fin 8 := 1
def stXENC : Fin 8 := 2
def stVELO : Fin 8 := 3
def stACCE : Fin 8 := 4
def stENAB : Fin 8 := 5
def stTEMP : Fin 8 := 6
def stPULL : Fin 8 := 7

/-- The per-axis motor-parameter vector `motorParamArr[board]` of
Parameters.h: 34 `int32_t` entries addressed by `motParamsIDList` index. -/
def MotorParams : Type := Fin 34 → Int

/-- The whole `motorParamArr` table: one 34-entry vector per axis slot. -/
def MotorParamArr : Type := Fin 4 → MotorParams

/-- Parameters::IsValidMotor (Parameters.cpp): a board number is valid iff
it lies in `0 .. MAXNUMMOTORS-1` with MAXNUMMOTORS = 4. -/
def IsValidMotor (board : Int) : Bool :=
  !(board < 0 || board ≥ 4)

/-- Parameters::IsActiveMotor (Parameters.cpp): valid board whose device
type is not MOTOR_NONE. -/
def IsActiveMotor (mt : Fin 4 → MotorType) (board : Int) : Bool :=
  if h : 0 ≤ board ∧ board < 4 then
    decide (mt ⟨board.toNat, by omega⟩ ≠ MotorType.MOTOR_NONE)
  else false

/-- Parameters::SetMotorParams (unnamed part_004, lines 220-225): store a
motor parameter verbatim after the validity check on the board number; no
range validation of the value is performed. Returns the updated table and
the error code. -/
def Parameters.SetMotorParams (arr : MotorParamArr) (board : Int)
    (index : Fin 34) (value : Int) : MotorParamArr × Int :=
  if h : 0 ≤ board ∧ board < 4 then
    (Function.update arr ⟨board.toNat, by omega⟩
      (Function.update (arr ⟨board.toNat, by omega⟩) index value), ERR_None)
  else
    (arr, ERR_Parameter)

/-- Parameters::GetMotorParams (unnamed part_004, lines 232-237): read a
motor parameter after the validity check on the board number. `value0` is
the caller's output variable, left untouched on an invalid board. -/
def Parameters.GetMotorParams (arr : MotorParamArr) (board : Int)
    (index : Fin 34) (value0 : Int) : Int × Int :=
  if h : 0 ≤ board ∧ board < 4 then
    (arr ⟨board.toNat, by omega⟩ index, ERR_None)
  else
    (value0, ERR_Parameter)

/-- Per-axis motion bookkeeping owned by the Motors orchestrator
(Motors.h: isMotorEnabled, isRemoteControlled, isMotorMoving,
isMotorHoming, isMotorSearching, targetPosition, setPosition,
iterationsLeft entries for one axis). -/
structure MotionState where
  isMotorEnabled : Bool
  isRemoteControlled : Bool
  isMotorMoving : Bool
  isMotorHoming : Bool
  isMotorSearching : Bool
  targetPosition : Int
  setPosition : Int
  iterationsLeft : Int
deriving DecidableEq

/-- The TMC5240 driver registers the spec-level properties mention
(XACTUAL, XTARGET, XENC, VMAX). -/
structure TMCRegs where
  xactual : Int
  xtarget : Int
  xenc : Int
  vmax : Int
deriving DecidableEq

/-- TMCSimStatus (TMC.h): the simulated kinematic state of a MOTOR_SIM
axis. `lastVelCalcTime` is wall-clock bookkeeping and is not modelled. -/
structure TMCSimStatus where
  xact : Int
  xtar : Int
  xenc : Int
  xmin : Int
  xmax : Int
  vel : Int
deriving DecidableEq

/-- Per-axis driver state: the modelled registers, the simulated state,
and the closed-loop parameter copies cached by TMC::Config
(encConst, maxIterations, tolerance, resetXafterCL in TMC.h). -/
structure TMCState where
  regs : TMCRegs
  sim : TMCSimStatus
  encConst : Int
  maxIterations : Int
  tolerance : Int
  resetXafterCL : Int
deriving DecidableEq

/-- TMC::SetXPos (TMC.cpp lines 383-398): force the X positions to `pos`
without moving the motor. On a real driver VMAX is saved, zeroed for the
two register writes, and restored, so its net register value is
unchanged; XTARGET and XACTUAL both become `pos`. On a simulated axis the
velocity is zeroed and xact/xtar become `pos`. MOTOR_NONE is not handled
by the source's if/else chain and falls through to `return ERR_None`. -/
def TMC.SetXPos (mt : MotorType) (t : TMCState) (pos : Int) : TMCState × Int :=
  match mt with
  | .MOTOR_TMC =>
      ({ t with regs := { t.regs with xtarget := pos, xactual := pos } }, ERR_None)
  | .MOTOR_SIM =>
      ({ t with sim := { t.sim with vel := 0, xact := pos, xtar := pos } }, ERR_None)
  | .MOTOR_NONE => (t, ERR_None)

/-- TMC::GetEnc (TMC.cpp lines 423-434): read the encoder position.
A real driver reads the XENC register; a simulated axis returns its
simulated actual position. `pos0` is the caller's output variable, left
untouched on MOTOR_NONE (which returns ERR_TMC). -/
def TMC.GetEnc (mt : MotorType) (t : TMCState) (pos0 : Int) : Int × Int :=
  match mt with
  | .MOTOR_TMC => (t.regs.xenc, ERR_None)
  | .MOTOR_SIM => (t.sim.xact, ERR_None)
  | .MOTOR_NONE => (pos0, ERR_TMC)

/-- TMC::CancelHoming (TMC.cpp lines 590-613): if homing is in progress,
restore the virtual-limit enables and clear the latch arming/status
fields (hardware fields outside the modelled registers), then clear the
homing flag. Returns the updated homing flag and the error code. -/
def TMC.CancelHoming (homing : Bool) : Bool × Int :=
  if homing = false then (homing, ERR_None)
  else (false, ERR_None)

/-- TMC::SetEnable (TMC.cpp lines 441-477): enable or disable the motor
driver. On a real driver, enabling writes TOFF from the MTOF parameter
(hardware field, outside the modelled registers); disabling switches to a
velocity ramp with VMAX = 0, writes TOFF = 0, and cancels an in-progress
homing. On a simulated axis the enable flag tracks `mode` and disabling
zeroes the simulated velocity. -/
def TMC.SetEnable (mt : MotorType) (ms : MotionState) (t : TMCState)
    (mode : Int) : MotionState × TMCState × Int :=
  match mt with
  | .MOTOR_TMC =>
      if mode ≠ 0 then
        ({ ms with isMotorEnabled := true }, t, ERR_None)
      else
        let t1 := { t with regs := { t.regs with vmax := 0 } }
        let ms1 := { ms with isMotorEnabled := false }
        if ms.isMotorHoming then
          let (h1, e1) := TMC.CancelHoming ms.isMotorHoming
          ({ ms1 with isMotorHoming := h1 }, t1, e1)
        else
          (ms1, t1, ERR_None)
  | .MOTOR_SIM =>
      ({ ms with isMotorEnabled := mode ≠ 0 },
       if mode = 0 then { t with sim := { t.sim with vel := 0 } } else t,
       ERR_None)
  | .MOTOR_NONE => (ms, t, ERR_TMC)

/-- TMC::SetStatusValue (TMC.cpp lines 691-753): write one entry of the
status vector. ENAB is handled first and is NOT subject to the remote
lock; every other entry is rejected with ERR_Motor while the axis is
remote controlled. On a real driver XACT/XTAR/XENC write the
corresponding registers, VELO and ACCE are range-checked against
RMXV/RMXA before writing (ACCE writes AMAX/DMAX, outside the modelled
registers), and unmatched entries (TEMP, PULL) do nothing and return
ERR_None. On a simulated axis the source's XTAR branch writes
`simValues.xact` (as written in TMC.cpp line 739). -/
def TMC.SetStatusValue (mt : MotorType) (mp : MotorParams)
    (ms : MotionState) (t : TMCState) (index : Fin 8) (value : Int) :
    MotionState × TMCState × Int :=
  match mt with
  | .MOTOR_TMC =>
      if index = stENAB then
        TMC.SetEnable mt ms t value
      else if ms.isRemoteControlled then
        (ms, t, ERR_Motor)
      else if index = stXACT then
        (ms, { t with regs := { t.regs with xactual := value } }, ERR_None)
      else if index = stXTAR then
        (ms, { t with regs := { t.regs with xtarget := value } }, ERR_None)
      else if index = stXENC then
        (ms, { t with regs := { t.regs with xenc := value } }, ERR_None)
      else if index = stVELO then
        if ¬(-(mp idxRMXV) ≤ value ∧ value ≤ mp idxRMXV) then (ms, t, ERR_TMC)
        else (ms, { t with regs := { t.regs with vmax := value } }, ERR_None)
      else if index = stACCE then
        if ¬(0 ≤ value ∧ value ≤ mp idxRMXA) then (ms, t, ERR_TMC)
        else (ms, t, ERR_None)
      else
        (ms, t, ERR_None)
  | .MOTOR_SIM =>
      if index = stENAB then
        TMC.SetEnable mt ms t value
      else if ms.isRemoteControlled then
        (ms, t, ERR_Motor)
      else if index = stXACT then
        (ms, { t with sim := { t.sim with xact := value } }, ERR_None)
      else if index = stXTAR then
        (ms, { t with sim := { t.sim with xact := value } }, ERR_None)
      else if index = stXENC then
        (ms, { t with sim := { t.sim with xenc := value } }, ERR_None)
      else if index = stVELO then
        (ms, { t with sim := { t.sim with vel := value } }, ERR_None)
      else
        (ms, t, ERR_None)
  | .MOTOR_NONE => (ms, t, ERR_TMC)

/-- Common tail of TMC::StartHoming for a real driver (TMC.cpp lines
537-569): the homing flag is raised, then EN_SOFTSTOP, the virtual-limit
disable, the latch arming and the ramp-mode direction are written
(hardware fields outside the modelled registers), the homing velocity is
range-checked against RMXV, VMAX is written, and a final CheckError poll
(`checkErr`) may fail. Note the homing flag is already set when the
velocity check or the error poll fails, as in the source. -/
def TMC.startHomingArm (mp : MotorParams) (ms : MotionState) (t : TMCState)
    (checkErr : Int) : MotionState × TMCState × Int :=
  let ms1 := { ms with isMotorHoming := true }
  let velMax := mp idxRMXV
  let homeVel := mp idxHVEL
  if ¬(0 ≤ homeVel ∧ homeVel ≤ velMax) then (ms1, t, ERR_TMC)
  else
    let t1 := { t with regs := { t.regs with vmax := homeVel } }
    if checkErr ≠ 0 then (ms1, t1, checkErr) else (ms1, t1, ERR_None)

/-- TMC::StartHoming (TMC.cpp lines 484-583). On a real driver the
configured soft-stop flag, homing mode, direction and (per mode) switch
enable or index-event selector are validated in source order, each
failure setting a fault message and returning ERR_TMC before the homing
flag is touched; then `startHomingArm` arms the search. On a simulated
axis the simulated position, encoder and velocity are zeroed, the homing
flag is written 0 and the call succeeds, with no look at the homing
configuration. -/
def TMC.StartHoming (mt : MotorType) (mp : MotorParams) (ms : MotionState)
    (t : TMCState) (checkErr : Int) : MotionState × TMCState × Int :=
  match mt with
  | .MOTOR_TMC =>
      let softStop := mp idxHSST
      if ¬(0 ≤ softStop ∧ softStop ≤ 1) then (ms, t, ERR_TMC)
      else
        let searchMode := mp idxHMOD
        if ¬(0 ≤ searchMode ∧ searchMode ≤ 2) then (ms, t, ERR_TMC)
        else if searchMode = 0 then (ms, t, ERR_TMC)
        else
          let dir := mp idxHDIR
          if |dir| ≠ 1 then (ms, t, ERR_TMC)
          else if searchMode = 1 then
            if (if dir = 1 then mp idxSREN else mp idxSLEN) ≠ 1 then (ms, t, ERR_TMC)
            else TMC.startHomingArm mp ms t checkErr
          else if searchMode = 2 then
            let indexMode := mp idxHNEV
            if indexMode < 0 ∨ indexMode > 3 then (ms, t, ERR_TMC)
            else TMC.startHomingArm mp ms t checkErr
          else (ms, t, ERR_TMC)
  | .MOTOR_SIM =>
      ({ ms with isMotorHoming := false },
       { t with sim := { t.sim with xact := 0, xenc := 0, vel := 0 } },
       ERR_None)
  | .MOTOR_NONE => (ms, t, ERR_TMC)

/-- The parameter-transfer loop of TMC::Config for a real driver
(TMC.cpp lines 138-232), walking the 34-entry table in index order:
range-validated fields abort with ERR_TMC on the first violation; the
closed-loop entries ECON/ETOL/EMAX/ERST are cached into the TMCState
copies; all driver field writes other than the cached copies are
hardware fields outside the modelled registers. The source's "MCTC"
branch (line 170) matches no table entry (the table spells it "MTCT"),
so index 9 is neither checked nor written. -/
def TMC.configLoop (mp : MotorParams) (t : TMCState) : TMCState × Int :=
  if ¬(32 ≤ mp idxCSCA ∧ mp idxCSCA ≤ 255) then (t, ERR_TMC) else
  if ¬(0 ≤ mp idxCRAN ∧ mp idxCRAN ≤ 3) then (t, ERR_TMC) else
  if ¬(0 ≤ mp idxCRUN ∧ mp idxCRUN ≤ 31) then (t, ERR_TMC) else
  if ¬(0 ≤ mp idxCHOL ∧ mp idxCHOL ≤ 31) then (t, ERR_TMC) else
  if ¬(0 ≤ mp idxMMIC ∧ mp idxMMIC ≤ 8) then (t, ERR_TMC) else
  if ¬(0 ≤ mp idxMINV ∧ mp idxMINV ≤ 1) then (t, ERR_TMC) else
  if ¬(0 ≤ mp idxMTOF ∧ mp idxMTOF ≤ 10) then (t, ERR_TMC) else
  if ¬(0 ≤ mp idxMSGE ∧ mp idxMSGE ≤ 1) then (t, ERR_TMC) else
  if ¬(-64 ≤ mp idxMSGT ∧ mp idxMSGT ≤ 63) then (t, ERR_TMC) else
  if ¬(0 ≤ mp idxRSEA ∧ mp idxRSEA ≤ mp idxRMXA) then (t, ERR_TMC) else
  let t1 := { t with encConst := mp idxECON }
  if ¬(0 ≤ mp idxEDEV ∧ mp idxEDEV ≤ 1000000000) then (t1, ERR_TMC) else
  let t2 := { t1 with tolerance := mp idxETOL }
  let t3 := { t2 with maxIterations := mp idxEMAX }
  let t4 := { t3 with resetXafterCL := mp idxERST }
  if ¬(0 ≤ mp idxSLEN ∧ mp idxSLEN ≤ 1) then (t4, ERR_TMC) else
  if ¬(0 ≤ mp idxSREN ∧ mp idxSREN ≤ 1) then (t4, ERR_TMC) else
  if ¬(0 ≤ mp idxSLPO ∧ mp idxSLPO ≤ 1) then (t4, ERR_TMC) else
  if ¬(0 ≤ mp idxSRPO ∧ mp idxSRPO ≤ 1) then (t4, ERR_TMC) else
  if ¬(0 ≤ mp idxSSWP ∧ mp idxSSWP ≤ 1) then (t4, ERR_TMC) else
  if ¬(0 ≤ mp idxLENC ∧ mp idxLENC ≤ 1) then (t4, ERR_TMC) else
  if ¬(0 ≤ mp idxLLEN ∧ mp idxLLEN ≤ 1) then (t4, ERR_TMC) else
  if ¬(0 ≤ mp idxLREN ∧ mp idxLREN ≤ 1) then (t4, ERR_TMC) else
  (t4, ERR_None)

/-- TMC::Config (TMC.cpp lines 113-301). For a real driver: the CS pin is
validated (`csPinValid`), an initial CheckError poll (`checkErr`) may
fail, the parameter loop runs, the overtemperature pre-warning threshold
is written (hardware field), the target position is re-armed to the
current (or encoder) position to suppress a spurious jump, the ramp mode
is set to position and the status registers are cleared. For a simulated
axis: encConst := 0, maxIterations := 1, the bounds are derived from the
virtual-limit parameters (INT32 extremes when disabled) and the
simulated state is zeroed. In every successful path the axis's enable,
moving and homing flags are cleared at the end (lines 296-298). -/
def TMC.Config (mt : MotorType) (mp : MotorParams) (ms : MotionState)
    (t : TMCState) (csPinValid : Bool) (checkErr : Int) :
    MotionState × TMCState × Int :=
  match mt with
  | .MOTOR_TMC =>
      if ¬csPinValid then (ms, t, ERR_TMC)
      else if checkErr ≠ 0 then (ms, t, checkErr)
      else
        match TMC.configLoop mp t with
        | (t1, e) =>
          if e ≠ 0 then (ms, t1, e)
          else
            let t2 :=
              if mp idxECON ≠ 0 then
                { t1 with regs := { t1.regs with xactual := t1.regs.xenc,
                                                 xtarget := t1.regs.xenc } }
              else
                { t1 with regs := { t1.regs with xtarget := t1.regs.xactual } }
            ({ ms with isMotorEnabled := false, isMotorMoving := false,
                       isMotorHoming := false },
             t2, ERR_None)
  | .MOTOR_SIM =>
      let t1 := { t with
        encConst := 0,
        maxIterations := 1,
        sim := { t.sim with
          xmin := if mp idxLLEN ≠ 0 then mp idxLLPS else -2147483648,
          xmax := if mp idxLREN ≠ 0 then mp idxLRPS else 2147483647,
          xact := 0, xenc := 0, vel := 0 } }
      ({ ms with isMotorEnabled := false, isMotorMoving := false,
                 isMotorHoming := false },
       t1, ERR_None)
  | .MOTOR_NONE => (ms, t, ERR_TMC)

/-- A call the orchestrator issues into the per-axis driver. The
driver-level return value of these calls is supplied to the orchestrator
functions as an explicit argument where the source inspects it. -/
inductive DriverCall where
  | moveToPos (pos : Int) (setVel : Int)
  | moveAtVel (vel : Int)
deriving DecidableEq

/-- Result of one searching-axis status poll step. -/
structure SearchPollResult where
  ms : MotionState
  tmc : TMCState
  calls : List DriverCall
  fault : Option String
deriving DecidableEq

/-- The `isMotorSearching` branch of Motors::ProcessUpdateChanges
(Motors.cpp lines 155-183) for one axis z, taken when the fast status
poll runs on an enabled, non-homing axis whose searching flag is set.
`checkErr` and `isMotionDone` are the outputs of the
`tmcArr[z].CheckStatus` hardware poll; `t` is the driver state after
that poll. On done, the encoder is read with GetEnc (whose 0 argument
stands for the uninitialized local `currPos`, never read on an active
axis), the deviation from the stored target is formed, and the source's
pull-in / exhaustion / within-tolerance cases follow. The return value
of the re-issued driver MoveToPos is assigned to the source's `err` but
never inspected, so the call is recorded without a result. -/
def Motors.processSearchingAxis (mt : MotorType) (ms : MotionState)
    (t : TMCState) (checkErr : Int) (isMotionDone : Bool) : SearchPollResult :=
  if checkErr ≠ 0 then
    { ms := { ms with isMotorMoving := false, isMotorSearching := false },
      tmc := t, calls := [],
      fault := some "Error during closed loop mode" }
  else if isMotionDone then
    let ms1 := { ms with isMotorMoving := false }
    let currPos := (TMC.GetEnc mt t 0).1
    let deviation := currPos - ms.targetPosition
    if |deviation| > t.tolerance then
      if ms.iterationsLeft = -1 ∨ ms.iterationsLeft > 0 then
        let ms2 := { ms1 with
          iterationsLeft :=
            if t.maxIterations > 1 then ms.iterationsLeft - 1
            else ms.iterationsLeft,
          isMotorMoving := true,
          setPosition := ms.setPosition - deviation }
        { ms := ms2, tmc := t,
          calls := [DriverCall.moveToPos (ms.setPosition - deviation) 0],
          fault := none }
      else
        { ms := { ms1 with isMotorMoving := false, isMotorSearching := false },
          tmc := t, calls := [],
          fault := some "Closed loop motion did not converge" }
    else
      let ms2 := { ms1 with
        isMotorSearching :=
          if ms.iterationsLeft ≠ -1 then false else ms.isMotorSearching }
      if t.resetXafterCL ≠ 0 then
        { ms := ms2, tmc := (TMC.SetXPos mt t currPos).1, calls := [],
          fault := none }
      else
        { ms := ms2, tmc := t, calls := [], fault := none }
  else
    { ms := ms, tmc := t, calls := [], fault := none }

/-- Motors::MoveToPos (Motors.cpp lines 200-233). Gates: the board must
be active (valid and not MOTOR_NONE), enabled and not homing, each
failure returning ERR_Motor before any motion state is touched. Closed
loop is selected iff (maxIterations == 0 or > 1) and encConst != 0,
using the parameter copies cached in the driver; `derr` is the return
value of the driver-level tmcArr[board].MoveToPos call, whose failure
rolls back the moving flag. -/
def Motors.MoveToPos (mt : Fin 4 → MotorType) (msArr : Fin 4 → MotionState)
    (drv : Fin 4 → TMCState) (board : Int) (pos : Int) (setVel : Int)
    (derr : Int) : (Fin 4 → MotionState) × List DriverCall × Int :=
  if h : 0 ≤ board ∧ board < 4 then
    let b : Fin 4 := ⟨board.toNat, by omega⟩
    if mt b = MotorType.MOTOR_NONE then (msArr, [], ERR_Motor)
    else
      let ms := msArr b
      if ¬ms.isMotorEnabled then (msArr, [], ERR_Motor)
      else if ms.isMotorHoming then (msArr, [], ERR_Motor)
      else
        let t := drv b
        let ms1 :=
          if (t.maxIterations = 0 ∨ t.maxIterations > 1) ∧ t.encConst ≠ 0 then
            { ms with targetPosition := pos,
                      iterationsLeft := t.maxIterations - 1,
                      isMotorMoving := true, isMotorSearching := true,
                      setPosition := pos }
          else
            { ms with iterationsLeft := 0, isMotorMoving := true,
                      isMotorSearching := false }
        if derr ≠ 0 then
          (Function.update msArr b { ms1 with isMotorMoving := false },
           [DriverCall.moveToPos pos setVel], ERR_Motor)
        else
          (Function.update msArr b ms1,
           [DriverCall.moveToPos pos setVel], ERR_None)
  else (msArr, [], ERR_Motor)

/-- Motors::MoveAtVel (Motors.cpp lines 239-265). Same gates as
MoveToPos; on the active/enabled/non-homing path the driver is called
(`derr` its return value), the moving flag becomes (vel != 0), and a
driver failure rolls the moving flag back to 0 with ERR_Motor. -/
def Motors.MoveAtVel (mt : Fin 4 → MotorType) (msArr : Fin 4 → MotionState)
    (board : Int) (vel : Int) (derr : Int) :
    (Fin 4 → MotionState) × List DriverCall × Int :=
  if h : 0 ≤ board ∧ board < 4 then
    let b : Fin 4 := ⟨board.toNat, by omega⟩
    if mt b = MotorType.MOTOR_NONE then (msArr, [], ERR_Motor)
    else
      let ms := msArr b
      if ¬ms.isMotorEnabled then (msArr, [], ERR_Motor)
      else if ms.isMotorHoming then (msArr, [], ERR_Motor)
      else
        let ms1 := { ms with isMotorMoving := vel ≠ 0 }
        if derr ≠ 0 then
          (Function.update msArr b { ms1 with isMotorMoving := false },
           [DriverCall.moveAtVel vel], ERR_Motor)
        else
          (Function.update msArr b ms1, [DriverCall.moveAtVel vel], ERR_None)
  else (msArr, [], ERR_Motor)

/-- Motors::SetRemoteEnabled (Motors.cpp lines 283-295). board = -1 sets
the remote-controlled flag of every active axis; otherwise an inactive
(or out-of-range) board does nothing and returns ERR_None, and an active
board's flag is set. Every path returns ERR_None. -/
def Motors.SetRemoteEnabled (mt : Fin 4 → MotorType)
    (msArr : Fin 4 → MotionState) (board : Int) (state : Bool) :
    (Fin 4 → MotionState) × Int :=
  if board = -1 then
    ((fun b => if mt b ≠ MotorType.MOTOR_NONE then
        { msArr b with isRemoteControlled := state }
      else msArr b), ERR_None)
  else if h : 0 ≤ board ∧ board < 4 then
    let b : Fin 4 := ⟨board.toNat, by omega⟩
    if mt b = MotorType.MOTOR_NONE then (msArr, ERR_None)
    else
      (Function.update msArr b { msArr b with isRemoteControlled := state },
       ERR_None)
  else (msArr, ERR_None)

/-- Motors::SetStatusValue (Motors.cpp lines 336-355). ENAB with
board = -1 walks every active axis, aborting on the first driver
failure; any other call requires an active board and forwards to
TMC::SetStatusValue on that axis. -/
def Motors.SetStatusValue (mt : Fin 4 → MotorType) (mp : MotorParamArr)
    (msArr : Fin 4 → MotionState) (drv : Fin 4 → TMCState) (board : Int)
    (index : Fin 8) (value : Int) :
    (Fin 4 → MotionState) × (Fin 4 → TMCState) × Int :=
  if index = stENAB ∧ board = -1 then
    ([(0 : Fin 4), 1, 2, 3].foldl
      (fun acc z =>
        if acc.2.2 ≠ 0 then acc
        else if mt z = MotorType.MOTOR_NONE then acc
        else
          let r := TMC.SetStatusValue (mt z) (mp z) (acc.1 z) (acc.2.1 z) index value
          (Function.update acc.1 z r.1, Function.update acc.2.1 z r.2.1, r.2.2))
      (msArr, drv, ERR_None))
  else if h : 0 ≤ board ∧ board < 4 then
    let b : Fin 4 := ⟨board.toNat, by omega⟩
    if mt b = MotorType.MOTOR_NONE then (msArr, drv, ERR_Motor)
    else
      let r := TMC.SetStatusValue (mt b) (mp b) (msArr b) (drv b) index value
      (Function.update msArr b r.1, Function.update drv b r.2.1, r.2.2)
  else (msArr, drv, ERR_Motor)

/-- Motors::StartHoming (Motors.cpp lines 321-329): requires an active,
enabled board, then delegates to TMC::StartHoming on that axis. -/
def Motors.StartHoming (mt : Fin 4 → MotorType) (mp : MotorParamArr)
    (msArr : Fin 4 → MotionState) (drv : Fin 4 → TMCState) (board : Int)
    (checkErr : Int) :
    (Fin 4 → MotionState) × (Fin 4 → TMCState) × Int :=
  if h : 0 ≤ board ∧ board < 4 then
    let b : Fin 4 := ⟨board.toNat, by omega⟩
    if mt b = MotorType.MOTOR_NONE then (msArr, drv, ERR_Motor)
    else if ¬(msArr b).isMotorEnabled then (msArr, drv, ERR_Motor)
    else
      let r := TMC.StartHoming (mt b) (mp b) (msArr b) (drv b) checkErr
      (Function.update msArr b r.1, Function.update drv b r.2.1, r.2.2)
  else (msArr, drv, ERR_Motor)

/-- SerialComm::CheckRemoteControl (SerialComm.cpp lines 421-429): a
remote-controlled axis makes the serial command fail with ERR_Serial. -/
def SerialComm.CheckRemoteControl (ms : MotionState) : Int :=
  if ms.isRemoteControlled then ERR_Serial else ERR_None

/-- The SMC_MPOS handler (SerialComm.cpp lines 81-90) after a successful
parse of `(board, pos)`: CheckRemoteControl runs before any motor-layer
work, and the move is forwarded with setVel = 1. The parsed board is a
valid axis index here, as the source indexes isRemoteControlled[board]
directly. -/
def SerialComm.handleMPOS (mt : Fin 4 → MotorType)
    (msArr : Fin 4 → MotionState) (drv : Fin 4 → TMCState) (board : Fin 4)
    (pos : Int) (derr : Int) : (Fin 4 → MotionState) × List DriverCall × Int :=
  if SerialComm.CheckRemoteControl (msArr board) ≠ 0 then (msArr, [], ERR_Serial)
  else Motors.MoveToPos mt msArr drv (board.val : Int) pos 1 derr

/-- The SMC_MVEL handler (SerialComm.cpp lines 94-103) after a successful
parse: CheckRemoteControl, then Motors::MoveAtVel. -/
def SerialComm.handleMVEL (mt : Fin 4 → MotorType)
    (msArr : Fin 4 → MotionState) (board : Fin 4) (vel : Int) (derr : Int) :
    (Fin 4 → MotionState) × List DriverCall × Int :=
  if SerialComm.CheckRemoteControl (msArr board) ≠ 0 then (msArr, [], ERR_Serial)
  else Motors.MoveAtVel mt msArr (board.val : Int) vel derr

/-- The SMC_HOME handler (SerialComm.cpp lines 328-337) after a
successful parse: CheckRemoteControl, then Motors::StartHoming. -/
def SerialComm.handleHOME (mt : Fin 4 → MotorType) (mp : MotorParamArr)
    (msArr : Fin 4 → MotionState) (drv : Fin 4 → TMCState) (board : Fin 4)
    (checkErr : Int) :
    (Fin 4 → MotionState) × (Fin 4 → TMCState) × Int :=
  if SerialComm.CheckRemoteControl (msArr board) ≠ 0 then (msArr, drv, ERR_Serial)
  else Motors.StartHoming mt mp msArr drv (board.val : Int) checkErr

/-- The SMS_* handler (SerialComm.cpp lines 133-147) after a successful
parse: the dispatcher applies no remote gate of its own and forwards the
status write to Motors::SetStatusValue. -/
def SerialComm.handleSMS (mt : Fin 4 → MotorType) (mp : MotorParamArr)
    (msArr : Fin 4 → MotionState) (drv : Fin 4 → TMCState) (board : Int)
    (index : Fin 8) (value : Int) :
    (Fin 4 → MotionState) × (Fin 4 → TMCState) × Int :=
  Motors.SetStatusValue mt mp msArr drv board index value

/-- RemoteComm::calculateChecksum (SerialComm.h part, lines 502-510): the
running 8-bit sum of the payload bytes. -/
def RemoteComm.calculateChecksum (data : List Nat) : Nat :=
  data.foldl (fun s c => (s + c) % 256) 0

/-- One received remote-transport frame after the UART read up to '>':
`payload` is the byte string between the leading '<' and the '|'
separator, `checksum` the 8-bit value sscanf %hhu parses after the
separator. -/
structure RemoteFrame where
  payload : List Nat
  checksum : Nat

/-- RemoteComm::validateChecksum (SerialComm.h part, lines 476-495):
recompute the 8-bit sum over the payload and compare it with the
transmitted value; 0 on match, -1 on mismatch. -/
def RemoteComm.validateChecksum (f : RemoteFrame) : Int :=
  if RemoteComm.calculateChecksum f.payload = f.checksum then 0 else -1

/-- RemoteComm::CheckRemoteCommands (SerialComm.h part, lines 309-347)
for one complete frame: a frame failing the checksum is dropped before
any token is looked at, with nothing written back; otherwise the payload
is split at ';' (byte 59) and each token goes through
processRemoteCommand — abstracted as the `process` argument covering the
POS/VEL/ACCREQ handlers (lines 354-415) over whatever board state `σ`
they touch, with the byte strings they transmit as second component. -/
def RemoteComm.CheckRemoteCommands {σ : Type}
    (process : σ → List Nat → σ × List (List Nat)) (st : σ)
    (f : RemoteFrame) : σ × List (List Nat) :=
  if RemoteComm.validateChecksum f ≠ 0 then (st, [])
  else
    (f.payload.splitOn 59).foldl
      (fun acc tok =>
        let r := process acc.1 tok
        (r.1, acc.2 ++ r.2))
      (st, [])

/-- All-zero register bank for the concrete states below. -/
def regs0 : TMCRegs := { xactual := 0, xtarget := 0, xenc := 0, vmax := 0 }

/-- All-zero simulated state for the concrete states below. -/
def sim0 : TMCSimStatus :=
  { xact := 0, xtar := 0, xenc := 0, xmin := 0, xmax := 0, vel := 0 }

/-- A baseline motion state: enabled, serial-controlled, idle. -/
def msIdle : MotionState :=
  { isMotorEnabled := true, isRemoteControlled := false, isMotorMoving := false,
    isMotorHoming := false, isMotorSearching := false,
    targetPosition := 0, setPosition := 0, iterationsLeft := 0 }

/-- Concrete searching axis: two pull-in tries left toward target 90. -/
def msC1 : MotionState :=
  { msIdle with isMotorMoving := true, isMotorSearching := true,
                targetPosition := 90, setPosition := 90, iterationsLeft := 2 }

/-- Concrete driver state for msC1: simulated axis resting at 100 with
closed-loop tolerance 5 and max-iterations 3. -/
def tC1 : TMCState :=
  { regs := regs0,
    sim := { sim0 with xact := 100, xenc := 100, xmin := -100000, xmax := 100000 },
    encConst := 1, maxIterations := 3, tolerance := 5, resetXafterCL := 0 }

/-- Concrete searching axis with an unlimited iteration budget
(iterationsLeft = -1, from max-iterations = 0) at target 100. -/
def msC2 : MotionState :=
  { msIdle with isMotorMoving := true, isMotorSearching := true,
                targetPosition := 100, setPosition := 100, iterationsLeft := -1 }

/-- Concrete driver state for msC2: simulated axis already at 100,
within the closed-loop tolerance 5; unlimited pull-ins. -/
def tC2 : TMCState :=
  { regs := regs0, sim := { sim0 with xact := 100, xenc := 100 },
    encConst := 1, maxIterations := 0, tolerance := 5, resetXafterCL := 0 }

/-- Concrete searching axis with a bounded budget at target 100. -/
def msC2w : MotionState :=
  { msIdle with isMotorMoving := true, isMotorSearching := true,
                targetPosition := 100, setPosition := 100, iterationsLeft := 2 }

/-- Concrete driver state for msC2w: simulated axis at 102 (within
tolerance 5), with the reset-after-closed-loop flag set. -/
def tC2w : TMCState :=
  { regs := regs0, sim := { sim0 with xact := 102, xenc := 102 },
    encConst := 1, maxIterations := 3, tolerance := 5, resetXafterCL := 1 }

/-- Device table with all four axes simulated. -/
def mtAllSim : Fin 4 → MotorType := fun _ => MotorType.MOTOR_SIM

/-- Motion table with every axis in the enabled idle state. -/
def msArrIdle : Fin 4 → MotionState := fun _ => msIdle

/-- Driver table with closed-loop parameters armed on every axis
(encoder constant 1, max-iterations 3, tolerance 5). -/
def drvCL : Fin 4 → TMCState :=
  fun _ => { regs := regs0, sim := sim0, encConst := 1, maxIterations := 3,
             tolerance := 5, resetXafterCL := 0 }

/-- Driver table with no encoder configured on any axis. -/
def drvOL : Fin 4 → TMCState :=
  fun _ => { regs := regs0, sim := sim0, encConst := 0, maxIterations := 1,
             tolerance := 0, resetXafterCL := 0 }

/-- Motion table with every axis disabled. -/
def msArrDisabled : Fin 4 → MotionState :=
  fun _ => { msIdle with isMotorEnabled := false }

/-- Motor-parameter table that is all zero (in particular homing
direction 0 and homing mode 0 = disabled). -/
def mpZero : MotorParamArr := fun _ _ => 0

/-- Device table with axis 0 real and the rest simulated. -/
def mtRealFirst : Fin 4 → MotorType :=
  fun b => if b = 0 then MotorType.MOTOR_TMC else MotorType.MOTOR_SIM

/-- Motion table with every axis enabled, idle and remote-controlled. -/
def msArrRemote : Fin 4 → MotionState :=
  fun _ => { msIdle with isRemoteControlled := true }

/-- Device table with axis 2 undefined (MOTOR_NONE) and the rest
simulated. -/
def mtC9 : Fin 4 → MotorType :=
  fun b => if b = 2 then MotorType.MOTOR_NONE else MotorType.MOTOR_SIM

/-- A motor-parameter vector that passes every Configure range check of
a real driver: current scale 32, homing velocity 0, everything else 0. -/
def mpConfOK : MotorParams := fun i => if i = idxCSCA then 32 else 0

/-! Theorems. Each claim of the specification is settled by one theorem
below; hypothesized theorems come with a closed witness instantiating
them at a concrete input. -/

/-- C5: for every valid axis index a (0..3), every parameter index i in
the 34-entry table, and every 32-bit value v, setting the motor
parameter and then getting it returns exactly v and ERR_None in both
directions: the parameter store performs no range validation or clamping
at write time. -/
theorem setMotorParams_getMotorParams_roundtrip
    (arr : MotorParamArr) (a : Int) (i : Fin 34) (v v0 : Int)
    (ha : 0 ≤ a ∧ a < 4)
    (hv : -2147483648 ≤ v ∧ v < 2147483648) :
    (Parameters.SetMotorParams arr a i v).2 = ERR_None ∧
    Parameters.GetMotorParams (Parameters.SetMotorParams arr a i v).1 a i v0
      = (v, ERR_None) := by
  unfold Parameters.SetMotorParams Parameters.GetMotorParams
  rw [dif_pos ha, dif_pos ha]
  simp

/-- Witness for C5: storing the out-of-documented-range run-current
value 40 on axis 2 and reading it back yields 40 with no error. -/
theorem setMotorParams_getMotorParams_roundtrip_witness :
    ((0 ≤ (2 : Int) ∧ (2 : Int) < 4) ∧
     (-2147483648 ≤ (40 : Int) ∧ (40 : Int) < 2147483648)) ∧
    ((Parameters.SetMotorParams mpZero 2 idxCRUN 40).2 = ERR_None ∧
     Parameters.GetMotorParams (Parameters.SetMotorParams mpZero 2 idxCRUN 40).1
       2 idxCRUN 0 = (40, ERR_None)) :=
  ⟨⟨by decide, by decide⟩,
   setMotorParams_getMotorParams_roundtrip mpZero 2 idxCRUN 40 0
     (by decide) (by decide)⟩

/-- C8: a remote-transport frame whose transmitted checksum differs from
the 8-bit sum of its payload bytes is dropped before any command token
is processed: the board state is returned unchanged and nothing is sent
back, whatever the command handlers would have done. -/
theorem checksum_mismatch_frame_discarded {σ : Type}
    (process : σ → List Nat → σ × List (List Nat)) (st : σ)
    (f : RemoteFrame)
    (hmm : RemoteComm.calculateChecksum f.payload ≠ f.checksum) :
    RemoteComm.CheckRemoteCommands process st f = (st, []) := by
  unfold RemoteComm.CheckRemoteCommands RemoteComm.validateChecksum
  simp [hmm]

/-- Witness for C8: the two-byte payload [80, 79] has 8-bit sum 159; a
frame carrying checksum 5 is dropped with the state (here a counter)
unchanged and no reply. -/
theorem checksum_mismatch_frame_discarded_witness :
    RemoteComm.calculateChecksum [80, 79] ≠ 5 ∧
    RemoteComm.CheckRemoteCommands
      (fun (s : Nat) (t : List Nat) => (s + 1, [t])) 0
      { payload := [80, 79], checksum := 5 } = (0, []) :=
  ⟨by decide,
   checksum_mismatch_frame_discarded (fun s t => (s + 1, [t])) 0
     { payload := [80, 79], checksum := 5 } (by decide)⟩

/-- C1: for an axis in closed-loop search whose status poll reports
motion done (checkErr = 0, isMotionDone = true), with deviation =
encoder position - target position: if |deviation| > tolerance and
iterations remain (iterationsLeft = -1 meaning unlimited, or > 0),
iterationsLeft is decremented exactly when the configured max-iterations
exceeds 1, a driver MoveToPos(setpoint - deviation) is re-issued with
setVel = 0 (the velocity is not re-specified), and the searching flag
stays true with no fault; if |deviation| > tolerance and no iterations
remain, the fault "Closed loop motion did not converge" is raised and
both moving and searching become false. -/
theorem closedLoop_done_pullin_or_fault (mt : MotorType) (ms : MotionState)
    (t : TMCState) (hsearch : ms.isMotorSearching = true) :
    (|(TMC.GetEnc mt t 0).1 - ms.targetPosition| > t.tolerance →
      (ms.iterationsLeft = -1 ∨ ms.iterationsLeft > 0) →
      (Motors.processSearchingAxis mt ms t 0 true).ms.iterationsLeft
          = (if t.maxIterations > 1 then ms.iterationsLeft - 1
             else ms.iterationsLeft) ∧
      (Motors.processSearchingAxis mt ms t 0 true).calls
          = [DriverCall.moveToPos
              (ms.setPosition - ((TMC.GetEnc mt t 0).1 - ms.targetPosition)) 0] ∧
      (Motors.processSearchingAxis mt ms t 0 true).ms.isMotorSearching = true ∧
      (Motors.processSearchingAxis mt ms t 0 true).ms.isMotorMoving = true ∧
      (Motors.processSearchingAxis mt ms t 0 true).fault = none) ∧
    (|(TMC.GetEnc mt t 0).1 - ms.targetPosition| > t.tolerance →
      ¬(ms.iterationsLeft = -1 ∨ ms.iterationsLeft > 0) →
      (Motors.processSearchingAxis mt ms t 0 true).fault
          = some "Closed loop motion did not converge" ∧
      (Motors.processSearchingAxis mt ms t 0 true).ms.isMotorMoving = false ∧
      (Motors.processSearchingAxis mt ms t 0 true).ms.isMotorSearching = false) := by
  constructor <;> intro hdev hit <;>
    simp [Motors.processSearchingAxis, hdev, hit, hsearch, ERR_None]

/-- Witness for C1: the searching axis msC1 (target 90, setpoint 90, two
tries left) polled done at encoder 100 with tolerance 5 re-issues
MoveToPos(80, setVel 0) and decrements the counter to 1 (tC1 has
max-iterations 3), keeping the search alive. -/
theorem closedLoop_done_pullin_or_fault_witness :
    msC1.isMotorSearching = true ∧
    ((Motors.processSearchingAxis MotorType.MOTOR_SIM msC1 tC1 0 true).calls
        = [DriverCall.moveToPos 80 0] ∧
     (Motors.processSearchingAxis MotorType.MOTOR_SIM msC1 tC1 0 true).ms.iterationsLeft = 1 ∧
     (Motors.processSearchingAxis MotorType.MOTOR_SIM msC1 tC1 0 true).ms.isMotorSearching = true) :=
  ⟨by decide, by
    have h := (closedLoop_done_pullin_or_fault MotorType.MOTOR_SIM msC1 tC1
      (by decide)).1 (by decide) (by decide)
    refine ⟨?_, ?_, h.2.2.1⟩
    · have := h.2.1
      norm_num [TMC.GetEnc, msC1, tC1, sim0, msIdle] at this
      exact this
    · have := h.1
      norm_num [msC1, tC1, msIdle] at this
      exact this⟩

/-- C2 counterexample: the searching axis msC2 runs on an unlimited
iteration budget (iterationsLeft = -1, from max-iterations = 0); when
its done status poll finds the encoder within tolerance of the target,
the moving flag clears but the searching flag STAYS true, so the search
does not stop as the claim states. -/
theorem closedLoop_withinTolerance_unlimited_keeps_searching :
    |(TMC.GetEnc MotorType.MOTOR_SIM tC2 0).1 - msC2.targetPosition| ≤ tC2.tolerance ∧
    msC2.isMotorSearching = true ∧ msC2.iterationsLeft = -1 ∧
    (Motors.processSearchingAxis MotorType.MOTOR_SIM msC2 tC2 0 true).ms.isMotorMoving = false ∧
    (Motors.processSearchingAxis MotorType.MOTOR_SIM msC2 tC2 0 true).ms.isMotorSearching = true := by
  decide

/-- C2 (amended): for an axis in closed-loop search whose done status
poll finds |encoder - target| ≤ tolerance, the moving flag becomes
false, and the searching flag becomes false exactly when iterationsLeft
is not -1 (with an unlimited budget, max-iterations = 0, the searching
flag stays set); no fault is raised; and when the
reset-after-closed-loop parameter is set, SetXPos forces the actual and
target position registers (real driver) or the simulated
actual/target positions to the measured encoder position. -/
theorem closedLoop_withinTolerance_step (mt : MotorType) (ms : MotionState)
    (t : TMCState) (hsearch : ms.isMotorSearching = true)
    (htol : ¬(|(TMC.GetEnc mt t 0).1 - ms.targetPosition| > t.tolerance)) :
    (Motors.processSearchingAxis mt ms t 0 true).ms.isMotorMoving = false ∧
    (Motors.processSearchingAxis mt ms t 0 true).ms.isMotorSearching
        = decide (ms.iterationsLeft = -1) ∧
    (Motors.processSearchingAxis mt ms t 0 true).fault = none ∧
    (t.resetXafterCL ≠ 0 → mt = MotorType.MOTOR_TMC →
      (Motors.processSearchingAxis mt ms t 0 true).tmc.regs.xactual
          = (TMC.GetEnc mt t 0).1 ∧
      (Motors.processSearchingAxis mt ms t 0 true).tmc.regs.xtarget
          = (TMC.GetEnc mt t 0).1) ∧
    (t.resetXafterCL ≠ 0 → mt = MotorType.MOTOR_SIM →
      (Motors.processSearchingAxis mt ms t 0 true).tmc.sim.xact
          = (TMC.GetEnc mt t 0).1 ∧
      (Motors.processSearchingAxis mt ms t 0 true).tmc.sim.xtar
          = (TMC.GetEnc mt t 0).1) := by
  refine ⟨?_, ?_, ?_, ?_, ?_⟩
  · simp [Motors.processSearchingAxis, htol, ERR_None]
    split_ifs <;> rfl
  · simp [Motors.processSearchingAxis, htol, ERR_None]
    by_cases hiter : ms.iterationsLeft = -1 <;>
      split_ifs <;> simp [hiter, hsearch]
  · simp [Motors.processSearchingAxis, htol, ERR_None]
    split_ifs <;> rfl
  · intro hrst hmt
    subst hmt
    simp [TMC.GetEnc] at htol
    simp [Motors.processSearchingAxis, ERR_None, TMC.SetXPos, TMC.GetEnc,
          hrst, not_lt.mpr htol]
  · intro hrst hmt
    subst hmt
    simp [TMC.GetEnc] at htol
    simp [Motors.processSearchingAxis, ERR_None, TMC.SetXPos, TMC.GetEnc,
          hrst, not_lt.mpr htol]

/-- Witness for C2 (amended): the bounded-budget axis msC2w (2 tries
left) polled done at encoder 102 within tolerance 5 of target 100 stops
searching, and with the reset flag set in tC2w the simulated
actual/target positions are forced to 102. -/
theorem closedLoop_withinTolerance_step_witness :
    (msC2w.isMotorSearching = true ∧
     ¬(|(TMC.GetEnc MotorType.MOTOR_SIM tC2w 0).1 - msC2w.targetPosition|
         > tC2w.tolerance)) ∧
    ((Motors.processSearchingAxis MotorType.MOTOR_SIM msC2w tC2w 0 true).ms.isMotorMoving = false ∧
     (Motors.processSearchingAxis MotorType.MOTOR_SIM msC2w tC2w 0 true).ms.isMotorSearching
        = decide (msC2w.iterationsLeft = -1) ∧
     (Motors.processSearchingAxis MotorType.MOTOR_SIM msC2w tC2w 0 true).tmc.sim.xact = 102 ∧
     (Motors.processSearchingAxis MotorType.MOTOR_SIM msC2w tC2w 0 true).tmc.sim.xtar = 102) :=
  ⟨⟨by decide, by decide⟩, by
    have h := closedLoop_withinTolerance_step MotorType.MOTOR_SIM msC2w tC2w
      (by decide) (by decide)
    have h5 := h.2.2.2.2 (by decide) rfl
    exact ⟨h.1, h.2.1, by simpa [TMC.GetEnc, tC2w, sim0] using h5.1,
           by simpa [TMC.GetEnc, tC2w, sim0] using h5.2⟩⟩

/-- C3: on an active, enabled, non-homing axis, Motors::MoveToPos sets
the searching flag if and only if the cached encoder constant is nonzero
and the cached max-iterations is 0 or greater than 1; in that case
iterationsLeft is initialized to max-iterations - 1 (so -1, unlimited,
when max-iterations is 0) and the target/setpoint are stored; otherwise
a single open-loop move is issued with searching false and
iterationsLeft 0. In both cases exactly one driver MoveToPos call is
issued. -/
theorem moveToPos_closedLoop_selection (mt : Fin 4 → MotorType)
    (msArr : Fin 4 → MotionState) (drv : Fin 4 → TMCState) (b : Fin 4)
    (pos setVel derr : Int)
    (hact : mt b ≠ MotorType.MOTOR_NONE)
    (hen : (msArr b).isMotorEnabled = true)
    (hhom : (msArr b).isMotorHoming = false) :
    ((Motors.MoveToPos mt msArr drv (b.val : Int) pos setVel derr).1 b).isMotorSearching
        = decide (((drv b).maxIterations = 0 ∨ (drv b).maxIterations > 1)
                   ∧ (drv b).encConst ≠ 0) ∧
    (((drv b).maxIterations = 0 ∨ (drv b).maxIterations > 1) ∧ (drv b).encConst ≠ 0 →
       ((Motors.MoveToPos mt msArr drv (b.val : Int) pos setVel derr).1 b).iterationsLeft
           = (drv b).maxIterations - 1 ∧
       ((Motors.MoveToPos mt msArr drv (b.val : Int) pos setVel derr).1 b).targetPosition
           = pos ∧
       ((Motors.MoveToPos mt msArr drv (b.val : Int) pos setVel derr).1 b).setPosition
           = pos) ∧
    (¬(((drv b).maxIterations = 0 ∨ (drv b).maxIterations > 1) ∧ (drv b).encConst ≠ 0) →
       ((Motors.MoveToPos mt msArr drv (b.val : Int) pos setVel derr).1 b).iterationsLeft
           = 0) ∧
    (Motors.MoveToPos mt msArr drv (b.val : Int) pos setVel derr).2.1
        = [DriverCall.moveToPos pos setVel] := by
  have hb : (0 : Int) ≤ (b.val : Int) ∧ ((b.val : Int)) < 4 := by
    refine ⟨by exact_mod_cast Nat.zero_le _, by exact_mod_cast b.isLt⟩
  unfold Motors.MoveToPos
  simp only [dif_pos hb, Int.toNat_natCast, Fin.eta]
  by_cases hcl : ((drv b).maxIterations = 0 ∨ (drv b).maxIterations > 1)
      ∧ (drv b).encConst ≠ 0 <;>
    by_cases hde : derr ≠ 0 <;>
    simp [hact, hen, hhom, hcl, hde]

/-- Witness for C3: with closed-loop parameters armed on every axis
(drvCL: encoder constant 1, max-iterations 3), a move of axis 1 to 500
starts a search with iterationsLeft 2; with no encoder (drvOL,
max-iterations 1) the same move is open-loop. -/
theorem moveToPos_closedLoop_selection_witness :
    (mtAllSim 1 ≠ MotorType.MOTOR_NONE ∧
     (msArrIdle 1).isMotorEnabled = true ∧
     (msArrIdle 1).isMotorHoming = false) ∧
    ((Motors.MoveToPos mtAllSim msArrIdle drvCL ((1 : Fin 4).val : Int)
        500 1 0).1 1).isMotorSearching = true ∧
    ((Motors.MoveToPos mtAllSim msArrIdle drvCL ((1 : Fin 4).val : Int)
        500 1 0).1 1).iterationsLeft = 2 ∧
    ((Motors.MoveToPos mtAllSim msArrIdle drvOL ((1 : Fin 4).val : Int)
        500 1 0).1 1).isMotorSearching = false :=
  ⟨⟨by decide, by decide, by decide⟩, by
    have h1 := moveToPos_closedLoop_selection mtAllSim msArrIdle drvCL 1
      500 1 0 (by decide) (by decide) (by decide)
    have h2 := moveToPos_closedLoop_selection mtAllSim msArrIdle drvOL 1
      500 1 0 (by decide) (by decide) (by decide)
    refine ⟨by simpa [drvCL] using h1.1, ?_, by simpa [drvOL] using h2.1⟩
    have := h1.2.1 (by decide)
    simpa [drvCL] using this.1⟩

/-- C4: MoveToPosition and MoveAtVelocity on a disabled or currently
homing axis return the motor-layer error ERR_Motor, issue no driver
call, and leave the MotionState of every axis (all fields) unchanged. -/
theorem move_commands_rejected_disabled_or_homing (mt : Fin 4 → MotorType)
    (msArr : Fin 4 → MotionState) (drv : Fin 4 → TMCState) (b : Fin 4)
    (pos setVel vel derr derr2 : Int)
    (hdis : (msArr b).isMotorEnabled = false ∨ (msArr b).isMotorHoming = true) :
    Motors.MoveToPos mt msArr drv (b.val : Int) pos setVel derr
        = (msArr, [], ERR_Motor) ∧
    Motors.MoveAtVel mt msArr (b.val : Int) vel derr2
        = (msArr, [], ERR_Motor) := by
  have hb : (0 : Int) ≤ (b.val : Int) ∧ ((b.val : Int)) < 4 := by
    refine ⟨by exact_mod_cast Nat.zero_le _, by exact_mod_cast b.isLt⟩
  constructor
  · unfold Motors.MoveToPos
    simp only [dif_pos hb, Int.toNat_natCast, Fin.eta]
    by_cases hmt : mt b = MotorType.MOTOR_NONE
    · simp [hmt]
    · rcases hdis with h | h
      · simp [hmt, h]
      · by_cases hen : (msArr b).isMotorEnabled <;> simp [hmt, hen, h]
  · unfold Motors.MoveAtVel
    simp only [dif_pos hb, Int.toNat_natCast, Fin.eta]
    by_cases hmt : mt b = MotorType.MOTOR_NONE
    · simp [hmt]
    · rcases hdis with h | h
      · simp [hmt, h]
      · by_cases hen : (msArr b).isMotorEnabled <;> simp [hmt, hen, h]

/-- Witness for C4: with every axis disabled, moving axis 1 to 500 or at
velocity 7 fails with ERR_Motor and the motion table is the very same
function. -/
theorem move_commands_rejected_disabled_or_homing_witness :
    ((msArrDisabled 1).isMotorEnabled = false ∨
     (msArrDisabled 1).isMotorHoming = true) ∧
    (Motors.MoveToPos mtAllSim msArrDisabled drvCL ((1 : Fin 4).val : Int)
        500 1 0 = (msArrDisabled, [], ERR_Motor) ∧
     Motors.MoveAtVel mtAllSim msArrDisabled ((1 : Fin 4).val : Int)
        7 0 = (msArrDisabled, [], ERR_Motor)) :=
  ⟨Or.inl (by decide),
   move_commands_rejected_disabled_or_homing mtAllSim msArrDisabled drvCL 1
     500 1 7 0 0 (Or.inl (by decide))⟩

/-- C6 counterexample: axis 0 is Simulated, active and enabled, its
configured homing direction is 0 (not in {-1,+1}) and its homing mode is
0 (disabled), yet StartHoming returns ERR_None — not a fault — so the
claim's "always returns a fault" fails for Simulated axes. -/
theorem startHoming_sim_ignores_direction_mode :
    mtAllSim 0 = MotorType.MOTOR_SIM ∧
    mpZero 0 idxHDIR = 0 ∧ mpZero 0 idxHMOD = 0 ∧
    (msArrIdle 0).isMotorEnabled = true ∧
    (Motors.StartHoming mtAllSim mpZero msArrIdle drvCL 0 0).2.2 = ERR_None ∧
    ((Motors.StartHoming mtAllSim mpZero msArrIdle drvCL 0 0).1 0).isMotorHoming
      = false := by
  decide

/-- Helper: every TMC::StartHoming path on a real driver with homing
direction not in {-1,+1} or homing mode 0 returns before the homing flag
is set, with ERR_TMC and the state untouched. -/
theorem tmc_startHoming_fault_eq (mp : MotorParams) (ms : MotionState)
    (t : TMCState) (checkErr : Int)
    (hbad : |mp idxHDIR| ≠ 1 ∨ mp idxHMOD = 0) :
    TMC.StartHoming MotorType.MOTOR_TMC mp ms t checkErr = (ms, t, ERR_TMC) := by
  unfold TMC.StartHoming
  by_cases h1 : 0 ≤ mp idxHSST ∧ mp idxHSST ≤ 1
  · by_cases h2 : 0 ≤ mp idxHMOD ∧ mp idxHMOD ≤ 2
    · by_cases h3 : mp idxHMOD = 0
      · simp [h1, h2, h3]
      · have hdir : |mp idxHDIR| ≠ 1 := by
          rcases hbad with h | h
          · exact h
          · exact absurd h h3
        simp [h1, h2, h3, hdir]
    · simp [h1, h2]
  · simp [h1]

/-- C6 (amended): on an active, enabled axis, StartHoming behaves by
device type. A Real axis whose configured homing direction is not in
{-1,+1} or whose homing mode is 0 (disabled) always returns the driver
fault ERR_TMC with the homing flag left false. A Simulated axis ignores
the homing configuration entirely: StartHoming zeroes the simulated
position, encoder and velocity and returns ERR_None, also with homing
false. -/
theorem startHoming_direction_mode_policy (mt : Fin 4 → MotorType)
    (mp : MotorParamArr) (msArr : Fin 4 → MotionState)
    (drv : Fin 4 → TMCState) (b : Fin 4) (checkErr : Int)
    (hen : (msArr b).isMotorEnabled = true)
    (hhom : (msArr b).isMotorHoming = false) :
    (mt b = MotorType.MOTOR_TMC →
      (|mp b idxHDIR| ≠ 1 ∨ mp b idxHMOD = 0) →
      (Motors.StartHoming mt mp msArr drv (b.val : Int) checkErr).2.2 = ERR_TMC ∧
      ((Motors.StartHoming mt mp msArr drv (b.val : Int) checkErr).1 b).isMotorHoming
        = false) ∧
    (mt b = MotorType.MOTOR_SIM →
      (Motors.StartHoming mt mp msArr drv (b.val : Int) checkErr).2.2 = ERR_None ∧
      ((Motors.StartHoming mt mp msArr drv (b.val : Int) checkErr).1 b).isMotorHoming
        = false ∧
      ((Motors.StartHoming mt mp msArr drv (b.val : Int) checkErr).2.1 b).sim.xact = 0 ∧
      ((Motors.StartHoming mt mp msArr drv (b.val : Int) checkErr).2.1 b).sim.xenc = 0 ∧
      ((Motors.StartHoming mt mp msArr drv (b.val : Int) checkErr).2.1 b).sim.vel = 0) := by
  have hb : (0 : Int) ≤ (b.val : Int) ∧ ((b.val : Int)) < 4 := by
    refine ⟨by exact_mod_cast Nat.zero_le _, by exact_mod_cast b.isLt⟩
  constructor
  · intro hmt hbad
    have hres : Motors.StartHoming mt mp msArr drv (b.val : Int) checkErr
        = (msArr, drv, ERR_TMC) := by
      unfold Motors.StartHoming
      rw [dif_pos hb]
      simp only [Int.toNat_natCast, Fin.eta]
      rw [if_neg (by simp [hmt]), if_neg (by simp [hen]), hmt,
          tmc_startHoming_fault_eq (mp b) (msArr b) (drv b) checkErr hbad]
      simp [Function.update_eq_self]
    rw [hres]
    exact ⟨rfl, hhom⟩
  · intro hmt
    have hres : Motors.StartHoming mt mp msArr drv (b.val : Int) checkErr
        = (Function.update msArr b { msArr b with isMotorHoming := false },
           Function.update drv b
             { drv b with
                 sim := { (drv b).sim with xact := 0, xenc := 0, vel := 0 } },
           ERR_None) := by
      unfold Motors.StartHoming
      rw [dif_pos hb]
      simp only [Int.toNat_natCast, Fin.eta]
      rw [if_neg (by simp [hmt]), if_neg (by simp [hen]), hmt]
      rfl
    rw [hres]
    simp

/-- Witness for C6 (amended): a Real axis 0 with the all-zero parameter
table (homing mode 0 = disabled, direction 0) faults with ERR_TMC and
homing stays false; the Simulated axis 1 under the same table homes
"successfully" with ERR_None. -/
theorem startHoming_direction_mode_policy_witness :
    ((msArrIdle 0).isMotorEnabled = true ∧ (msArrIdle 0).isMotorHoming = false ∧
     mtRealFirst 0 = MotorType.MOTOR_TMC ∧
     (|mpZero 0 idxHDIR| ≠ 1 ∨ mpZero 0 idxHMOD = 0)) ∧
    ((Motors.StartHoming mtRealFirst mpZero msArrIdle drvCL
        ((0 : Fin 4).val : Int) 0).2.2 = ERR_TMC ∧
     ((Motors.StartHoming mtRealFirst mpZero msArrIdle drvCL
        ((0 : Fin 4).val : Int) 0).1 0).isMotorHoming = false) :=
  ⟨⟨by decide, by decide, by decide, Or.inr (by decide)⟩,
   (startHoming_direction_mode_policy mtRealFirst mpZero msArrIdle drvCL 0 0
     (by decide) (by decide)).1 (by decide) (Or.inr (by decide))⟩

/-- C7 counterexample: axis 0 is remote-controlled and enabled, yet the
status-set command SMS_ENAB (disable) is NOT rejected: it returns
ERR_None and flips the enable flag, because TMC::SetStatusValue exempts
ENAB from the remote-control check. -/
theorem sms_enab_bypasses_remote_lock :
    (msArrRemote 0).isRemoteControlled = true ∧
    (msArrRemote 0).isMotorEnabled = true ∧
    (SerialComm.handleSMS mtAllSim mpZero msArrRemote drvCL 0 stENAB 0).2.2
        = ERR_None ∧
    ((SerialComm.handleSMS mtAllSim mpZero msArrRemote drvCL 0 stENAB 0).1 0).isMotorEnabled
        = false := by
  decide

/-- C7 (amended): while an axis's remote-controlled flag is set, the
serial position (SMC_MPOS), velocity (SMC_MVEL) and homing (SMC_HOME)
commands for it fail with the serial-layer code ERR_Serial before any
motor-layer work, and every status-set command (SMS_*) other than ENAB
fails with ERR_Motor, all leaving every axis's state and the driver
state unchanged; once the flag is 0 the remote-control gate passes.
(ENAB is exempt, see the counterexample.) -/
theorem remote_lock_blocks_serial_commands (mt : Fin 4 → MotorType)
    (mp : MotorParamArr) (msArr : Fin 4 → MotionState)
    (drv : Fin 4 → TMCState) (b : Fin 4)
    (pos vel value derr derr2 checkErr : Int) (idx : Fin 8)
    (hrem : (msArr b).isRemoteControlled = true)
    (hact : mt b ≠ MotorType.MOTOR_NONE)
    (hidx : idx ≠ stENAB) :
    SerialComm.handleMPOS mt msArr drv b pos derr = (msArr, [], ERR_Serial) ∧
    SerialComm.handleMVEL mt msArr b vel derr2 = (msArr, [], ERR_Serial) ∧
    SerialComm.handleHOME mt mp msArr drv b checkErr = (msArr, drv, ERR_Serial) ∧
    SerialComm.handleSMS mt mp msArr drv (b.val : Int) idx value
        = (msArr, drv, ERR_Motor) ∧
    (∀ ms2 : MotionState, ms2.isRemoteControlled = false →
       SerialComm.CheckRemoteControl ms2 = ERR_None) := by
  have hb : (0 : Int) ≤ (b.val : Int) ∧ ((b.val : Int)) < 4 := by
    refine ⟨by exact_mod_cast Nat.zero_le _, by exact_mod_cast b.isLt⟩
  have hb1 : ((b.val : Int)) ≠ -1 := by omega
  refine ⟨?_, ?_, ?_, ?_, ?_⟩
  · simp [SerialComm.handleMPOS, SerialComm.CheckRemoteControl, hrem,
          ERR_Serial]
  · simp [SerialComm.handleMVEL, SerialComm.CheckRemoteControl, hrem,
          ERR_Serial]
  · simp [SerialComm.handleHOME, SerialComm.CheckRemoteControl, hrem,
          ERR_Serial]
  · unfold SerialComm.handleSMS Motors.SetStatusValue
    rw [if_neg (by simp [hb1])]
    simp only [dif_pos hb, Int.toNat_natCast, Fin.eta]
    cases hmt : mt b with
    | MOTOR_NONE => exact absurd hmt hact
    | MOTOR_TMC =>
      simp [hmt, TMC.SetStatusValue, hidx, hrem, Function.update_eq_self]
    | MOTOR_SIM =>
      simp [hmt, TMC.SetStatusValue, hidx, hrem, Function.update_eq_self]
  · intro ms2 h2
    simp [SerialComm.CheckRemoteControl, h2]

/-- Witness for C7 (amended): on the remote-controlled axis 1, a
position command, a velocity command, a homing command and the
status-set SMS_XACT all fail (ERR_Serial / ERR_Motor) with the state
unchanged. -/
theorem remote_lock_blocks_serial_commands_witness :
    ((msArrRemote 1).isRemoteControlled = true ∧
     mtAllSim 1 ≠ MotorType.MOTOR_NONE ∧ stXACT ≠ stENAB) ∧
    (SerialComm.handleMPOS mtAllSim msArrRemote drvCL 1 500 0
        = (msArrRemote, [], ERR_Serial) ∧
     SerialComm.handleMVEL mtAllSim msArrRemote 1 7 0
        = (msArrRemote, [], ERR_Serial) ∧
     SerialComm.handleHOME mtAllSim mpZero msArrRemote drvCL 1 0
        = (msArrRemote, drvCL, ERR_Serial) ∧
     SerialComm.handleSMS mtAllSim mpZero msArrRemote drvCL
        ((1 : Fin 4).val : Int) stXACT 42 = (msArrRemote, drvCL, ERR_Motor) ∧
     (∀ ms2 : MotionState, ms2.isRemoteControlled = false →
        SerialComm.CheckRemoteControl ms2 = ERR_None)) :=
  ⟨⟨by decide, by decide, by decide⟩,
   remote_lock_blocks_serial_commands mtAllSim mpZero msArrRemote drvCL 1
     500 7 42 0 0 0 stXACT (by decide) (by decide) (by decide)⟩

/-- C9 counterexample: axis 2 is undefined (MOTOR_NONE); setting its
remote ownership returns ERR_None — success, not an error — while
leaving every axis's flags unchanged, so the claim's "returns an error"
fails. -/
theorem setRemoteEnabled_inactive_returns_success :
    mtC9 2 = MotorType.MOTOR_NONE ∧
    (Motors.SetRemoteEnabled mtC9 msArrIdle 2 true).2 = ERR_None ∧
    (Motors.SetRemoteEnabled mtC9 msArrIdle 2 true).1 = msArrIdle :=
  ⟨by decide, by decide, rfl⟩

/-- C9 (amended): SetRemoteOwnership on a single inactive or undefined
axis does nothing and returns success (ERR_None) — it reports no error —
leaving the remote-controlled flag of every axis unchanged; and
disabling remote ownership on an active axis always succeeds and clears
that axis's flag. -/
theorem setRemoteEnabled_policy (mt : Fin 4 → MotorType)
    (msArr : Fin 4 → MotionState) (board : Int) (state : Bool) (b : Fin 4)
    (hbm : board ≠ -1) (hinact : IsActiveMotor mt board = false)
    (hact : mt b ≠ MotorType.MOTOR_NONE) :
    Motors.SetRemoteEnabled mt msArr board state = (msArr, ERR_None) ∧
    (Motors.SetRemoteEnabled mt msArr (b.val : Int) false).2 = ERR_None ∧
    ((Motors.SetRemoteEnabled mt msArr (b.val : Int) false).1 b).isRemoteControlled
        = false := by
  have hb : (0 : Int) ≤ (b.val : Int) ∧ ((b.val : Int)) < 4 := by
    refine ⟨by exact_mod_cast Nat.zero_le _, by exact_mod_cast b.isLt⟩
  refine ⟨?_, ?_, ?_⟩
  · unfold Motors.SetRemoteEnabled
    rw [if_neg hbm]
    unfold IsActiveMotor at hinact
    by_cases h : 0 ≤ board ∧ board < 4
    · rw [dif_pos h] at hinact
      simp only [decide_eq_false_iff_not, not_not] at hinact
      rw [dif_pos h]
      simp [hinact]
    · rw [dif_neg h]
  · unfold Motors.SetRemoteEnabled
    rw [if_neg (by omega)]
    simp only [dif_pos hb, Int.toNat_natCast, Fin.eta]
    simp [hact]
  · unfold Motors.SetRemoteEnabled
    rw [if_neg (by omega)]
    simp only [dif_pos hb, Int.toNat_natCast, Fin.eta]
    simp [hact]

/-- Witness for C9 (amended): with axis 2 undefined, enabling its remote
ownership is a silent no-op returning ERR_None, and disabling remote
ownership of the active, remote-controlled axis 0 succeeds and clears
its flag. -/
theorem setRemoteEnabled_policy_witness :
    ((2 : Int) ≠ -1 ∧ IsActiveMotor mtC9 2 = false ∧
     mtC9 0 ≠ MotorType.MOTOR_NONE) ∧
    (Motors.SetRemoteEnabled mtC9 msArrRemote 2 true = (msArrRemote, ERR_None) ∧
     (Motors.SetRemoteEnabled mtC9 msArrRemote ((0 : Fin 4).val : Int) false).2
        = ERR_None ∧
     ((Motors.SetRemoteEnabled mtC9 msArrRemote ((0 : Fin 4).val : Int) false).1 0).isRemoteControlled
        = false) :=
  ⟨⟨by decide, by decide, by decide⟩,
   setRemoteEnabled_policy mtC9 msArrRemote 2 true 0 (by decide) (by decide)
     (by decide)⟩

/-- C10: every successful TMC::Config call, Real or Simulated, leaves
the axis with enabled = false, moving = false and homing = false; as a
consequence, a subsequent Motors::MoveToPos on an axis in that state
fails with ERR_Motor and changes nothing, until an explicit enable. -/
theorem config_success_clears_flags (mt : MotorType) (mp : MotorParams)
    (ms : MotionState) (t : TMCState) (cs : Bool) (ce : Int)
    (hok : (TMC.Config mt mp ms t cs ce).2.2 = ERR_None) :
    (TMC.Config mt mp ms t cs ce).1.isMotorEnabled = false ∧
    (TMC.Config mt mp ms t cs ce).1.isMotorMoving = false ∧
    (TMC.Config mt mp ms t cs ce).1.isMotorHoming = false ∧
    (∀ (mtA : Fin 4 → MotorType) (drvA : Fin 4 → TMCState) (b : Fin 4)
       (pos setVel derr : Int),
       Motors.MoveToPos mtA (fun _ => (TMC.Config mt mp ms t cs ce).1) drvA
         (b.val : Int) pos setVel derr
         = ((fun _ => (TMC.Config mt mp ms t cs ce).1), [], ERR_Motor)) := by
  have hms : (TMC.Config mt mp ms t cs ce).1
      = { ms with isMotorEnabled := false, isMotorMoving := false,
                  isMotorHoming := false } := by
    cases mt with
    | MOTOR_NONE => simp [TMC.Config, ERR_TMC, ERR_None] at hok
    | MOTOR_SIM => simp [TMC.Config]
    | MOTOR_TMC =>
      unfold TMC.Config at hok ⊢
      rcases hcl : TMC.configLoop mp t with ⟨t1, e⟩
      by_cases h1 : cs <;> by_cases h2 : ce ≠ 0 <;> by_cases h3 : e ≠ 0 <;>
        simp_all [ERR_TMC, ERR_None]
  refine ⟨by rw [hms], by rw [hms], by rw [hms], ?_⟩
  intro mtA drvA b pos setVel derr
  have hb : (0 : Int) ≤ (b.val : Int) ∧ ((b.val : Int)) < 4 := by
    refine ⟨by exact_mod_cast Nat.zero_le _, by exact_mod_cast b.isLt⟩
  unfold Motors.MoveToPos
  simp only [dif_pos hb, Int.toNat_natCast, Fin.eta]
  by_cases hmt : mtA b = MotorType.MOTOR_NONE
  · simp [hmt]
  · simp [hmt, hms]

/-- Witness for C10: configuring a Real axis with the passing parameter
table mpConfOK from the moving, searching state msC1 succeeds and clears
the enable, moving and homing flags. -/
theorem config_success_clears_flags_witness :
    (TMC.Config MotorType.MOTOR_TMC mpConfOK msC1 tC1 true 0).2.2 = ERR_None ∧
    ((TMC.Config MotorType.MOTOR_TMC mpConfOK msC1 tC1 true 0).1.isMotorEnabled
        = false ∧
     (TMC.Config MotorType.MOTOR_TMC mpConfOK msC1 tC1 true 0).1.isMotorMoving
        = false ∧
     (TMC.Config MotorType.MOTOR_TMC mpConfOK msC1 tC1 true 0).1.isMotorHoming
        = false) :=
  ⟨by decide, by
    have h := config_success_clears_flags MotorType.MOTOR_TMC mpConfOK msC1
      tC1 true 0 (by decide)
    exact ⟨h.1, h.2.1, h.2.2.1⟩⟩

end PicoStage
